import Mathlib

/-!
Verification development for the `multiply_ai_coding_task` conversation engine
(`src/multiply_ai_coding_task/chat.py`).

The Python source is shallowly embedded as executable Lean definitions:
* strings are handled as `List Char` after the `lower()` / `strip()`
  normalisations the source applies (`Char.toLower` models `str.lower` for
  the ASCII inputs the source deals with);
* Python `datetime.date` is a `Date` record of numerals with the validity
  predicate of the `datetime` library (years 1..9999, calendar-accurate
  month lengths, Gregorian leap years);
* Python `float` arithmetic in `parse_currency` and goal construction is
  modelled with `ℚ` (all operations the source performs on the inputs the
  specification discusses are exact);
* the external LLM call plus JSON decoding is the external boundary:
  a turn receives `Option JObj` - `none` models a failed call, an empty
  response, or a response that does not decode to a JSON object, `some data`
  models a successfully decoded JSON object;
* a Python exception escaping `chat_response` is modelled by the engine
  returning `none`.
-/

set_option maxHeartbeats 1000000

namespace MultiplyChat

/-! ## Characters and digit rendering -/

/-- The decimal digit character for `n < 10` (used to model Python's
zero-padded decimal rendering in `date.isoformat`). -/
def digitChar : Nat → Char
  | 0 => '0' | 1 => '1' | 2 => '2' | 3 => '3' | 4 => '4'
  | 5 => '5' | 6 => '6' | 7 => '7' | 8 => '8' | 9 => '9'
  | _ => '*'

/-- Numeric value of a decimal digit character. -/
def cVal (c : Char) : Nat := c.toNat - 48

/-- Two-digit zero-padded rendering (`"%02d"`) of `n ≤ 99`. -/
def pad2 (n : Nat) : List Char := [digitChar (n / 10 % 10), digitChar (n % 10)]

/-- Four-digit zero-padded rendering (`"%04d"`) of `n ≤ 9999`. -/
def pad4 (n : Nat) : List Char :=
  [digitChar (n / 1000 % 10), digitChar (n / 100 % 10),
   digitChar (n / 10 % 10), digitChar (n % 10)]

/-- Whitespace as stripped by Python's `str.strip` (ASCII fragment). -/
def isPySpace (c : Char) : Bool := c.isWhitespace

/-- Python `str.lower` on the decoded character list (ASCII fragment). -/
def pyLower (l : List Char) : List Char := l.map Char.toLower

/-- Python `str.strip` on the decoded character list. -/
def pyStrip (l : List Char) : List Char :=
  ((l.dropWhile isPySpace).reverse.dropWhile isPySpace).reverse

/-- `needle in haystack` - Python substring containment. -/
def containsSeq (needle : List Char) : List Char → Bool
  | [] => List.isPrefixOf needle []
  | c :: rest => List.isPrefixOf needle (c :: rest) || containsSeq needle rest

/-- Decimal value of a list of digit characters (Python `int` on a digit run). -/
def charsToNat (l : List Char) : Nat := l.foldl (fun a c => 10 * a + cVal c) 0

/-- First maximal run of decimal digits in the string, as a number
(models `int(re.search(r'\d+', s).group())`; `none` when no digit occurs). -/
def findNum : List Char → Option Nat
  | [] => none
  | c :: rest =>
    if c.isDigit then some (charsToNat (c :: rest.takeWhile Char.isDigit))
    else findNum rest

/-! ## Calendar dates (`datetime.date`) -/

/-- A calendar date, as `datetime.date`. -/
structure Date where
  year : Nat
  month : Nat
  day : Nat
  deriving DecidableEq, Repr

/-- Gregorian leap-year rule used by `datetime`. -/
def isLeapYear (y : Nat) : Bool :=
  y % 4 = 0 && (y % 100 != 0 || y % 400 = 0)

/-- Length of a month in the given year. -/
def daysInMonth (y m : Nat) : Nat :=
  if m = 2 then (if isLeapYear y then 29 else 28)
  else if m = 4 ∨ m = 6 ∨ m = 9 ∨ m = 11 then 30
  else 31

/-- The dates representable by `datetime.date` (years 1..9999). -/
def ValidDate (d : Date) : Prop :=
  1 ≤ d.year ∧ d.year ≤ 9999 ∧ 1 ≤ d.month ∧ d.month ≤ 12 ∧
  1 ≤ d.day ∧ d.day ≤ daysInMonth d.year d.month

instance : DecidablePred ValidDate := fun d => by unfold ValidDate; infer_instance

/-- `datetime.date(y, m, d)`: `some` on a valid date, `none` models the
`ValueError` the constructor raises otherwise. -/
def mkValidDate (y m d : Nat) : Option Date :=
  if ValidDate ⟨y, m, d⟩ then some ⟨y, m, d⟩ else none

/-- Character rendering of `date.isoformat()` / `str(date)`: zero-padded
`YYYY-MM-DD`. -/
def isoChars (d : Date) : List Char :=
  pad4 d.year ++ '-' :: pad2 d.month ++ '-' :: pad2 d.day

/-- `date.isoformat()` as a `String`. -/
def isoFormat (d : Date) : String := String.mk (isoChars d)

/-- Successor day, `none` past the `datetime` maximum `9999-12-31`
(models the `OverflowError` of date arithmetic beyond the maximum). -/
def nextDay (d : Date) : Option Date :=
  if d.day < daysInMonth d.year d.month then some { d with day := d.day + 1 }
  else if d.month < 12 then some ⟨d.year, d.month + 1, 1⟩
  else if d.year < 9999 then some ⟨d.year + 1, 1, 1⟩
  else none

/-- `date + timedelta(days = n)`, `none` on overflow past year 9999. -/
def addDaysOpt (d : Date) : Nat → Option Date
  | 0 => some d
  | n + 1 =>
    match nextDay d with
    | some d' => addDaysOpt d' n
    | none => none

/-! ## `strptime` format models

CPython's `_strptime` compiles `%Y` to the regex `\d\d\d\d`, `%m` to
`1[0-2]|0[1-9]|[1-9]` and `%d` to `3[01]|[12]\d|0[1-9]|[1-9]`, and requires
the whole input to be consumed; month names match case-insensitively,
longest name first, and a whitespace run in the format matches one or more
whitespace characters.  The readers below model exactly those regexes. -/

/-- `%Y`: exactly four decimal digits. -/
def readY4 : List Char → Option (Nat × List Char)
  | a :: b :: c :: d :: rest =>
    if a.isDigit ∧ b.isDigit ∧ c.isDigit ∧ d.isDigit then
      some (1000 * cVal a + 100 * cVal b + 10 * cVal c + cVal d, rest)
    else none
  | _ => none

/-- `%m`: `1[0-2]|0[1-9]|[1-9]`. -/
def readMM : List Char → Option (Nat × List Char)
  | c1 :: c2 :: rest =>
    if c1 = '1' ∧ ('0' ≤ c2 ∧ c2 ≤ '2') then some (10 + cVal c2, rest)
    else if c1 = '0' ∧ ('1' ≤ c2 ∧ c2 ≤ '9') then some (cVal c2, rest)
    else if '1' ≤ c1 ∧ c1 ≤ '9' then some (cVal c1, c2 :: rest)
    else none
  | [c1] => if '1' ≤ c1 ∧ c1 ≤ '9' then some (cVal c1, []) else none
  | [] => none

/-- `%d`: `3[01]|[12]\d|0[1-9]|[1-9]`. -/
def readDD : List Char → Option (Nat × List Char)
  | c1 :: c2 :: rest =>
    if c1 = '3' ∧ (c2 = '0' ∨ c2 = '1') then some (30 + cVal c2, rest)
    else if (c1 = '1' ∨ c1 = '2') ∧ c2.isDigit then
      some (10 * cVal c1 + cVal c2, rest)
    else if c1 = '0' ∧ ('1' ≤ c2 ∧ c2 ≤ '9') then some (cVal c2, rest)
    else if '1' ≤ c1 ∧ c1 ≤ '9' then some (cVal c1, c2 :: rest)
    else none
  | [c1] => if '1' ≤ c1 ∧ c1 ≤ '9' then some (cVal c1, []) else none
  | [] => none

/-- A whitespace run in a `strptime` format: one or more whitespace chars. -/
def readWS : List Char → Option (List Char)
  | c :: rest => if isPySpace c then some (rest.dropWhile isPySpace) else none
  | [] => none

/-- Full month names (lowercase - the input to the readers has been through
`str.lower`; `strptime` matches names case-insensitively). -/
def fullMonthNames : List (Nat × List Char) :=
  [(9, "september".data), (2, "february".data), (11, "november".data),
   (12, "december".data), (1, "january".data), (10, "october".data),
   (8, "august".data), (3, "march".data), (4, "april".data),
   (6, "june".data), (7, "july".data), (5, "may".data)]

/-- Abbreviated month names. -/
def abbrMonthNames : List (Nat × List Char) :=
  [(1, "jan".data), (2, "feb".data), (3, "mar".data), (4, "apr".data),
   (5, "may".data), (6, "jun".data), (7, "jul".data), (8, "aug".data),
   (9, "sep".data), (10, "oct".data), (11, "nov".data), (12, "dec".data)]

/-- Match one month name from the table (longest-first for the full names;
no table entry is a prefix of another, so first-match is faithful). -/
def readMonthName : List (Nat × List Char) → List Char → Option (Nat × List Char)
  | [], _ => none
  | (m, nm) :: rest, l =>
    if List.isPrefixOf nm l then some (m, l.drop nm.length)
    else readMonthName rest l

/-- `strptime(s, "%Y-%m-%d")` followed by date construction. -/
def strptimeYMD (l : List Char) : Option Date :=
  match readY4 l with
  | some (y, '-' :: r2) =>
    match readMM r2 with
    | some (m, '-' :: r4) =>
      match readDD r4 with
      | some (d, []) => mkValidDate y m d
      | _ => none
    | _ => none
  | _ => none

/-- `strptime(s, "%d/%m/%Y")`. -/
def strptimeDMY (l : List Char) : Option Date :=
  match readDD l with
  | some (d, '/' :: r2) =>
    match readMM r2 with
    | some (m, '/' :: r4) =>
      match readY4 r4 with
      | some (y, []) => mkValidDate y m d
      | _ => none
    | _ => none
  | _ => none

/-- `strptime(s, "%m/%d/%Y")`. -/
def strptimeMDY (l : List Char) : Option Date :=
  match readMM l with
  | some (m, '/' :: r2) =>
    match readDD r2 with
    | some (d, '/' :: r4) =>
      match readY4 r4 with
      | some (y, []) => mkValidDate y m d
      | _ => none
    | _ => none
  | _ => none

/-- `strptime(s, "%B %d, %Y")` (resp. `"%b %d, %Y"`). -/
def strptimeNamedDY (names : List (Nat × List Char)) (l : List Char) : Option Date :=
  match readMonthName names l with
  | some (m, r1) =>
    match readWS r1 with
    | some r2 =>
      match readDD r2 with
      | some (d, ',' :: r3) =>
        match readWS r3 with
        | some r4 =>
          match readY4 r4 with
          | some (y, []) => mkValidDate y m d
          | _ => none
        | none => none
      | _ => none
    | none => none
  | none => none

/-- `strptime(s, "%B %Y")` (resp. `"%b %Y"`): day defaults to 1. -/
def strptimeNamedY (names : List (Nat × List Char)) (l : List Char) : Option Date :=
  match readMonthName names l with
  | some (m, r1) =>
    match readWS r1 with
    | some r2 =>
      match readY4 r2 with
      | some (y, []) => mkValidDate y m 1
      | _ => none
    | none => none
  | none => none

/-- The source's format loop:
`for fmt in ("%Y-%m-%d", "%d/%m/%Y", "%m/%d/%Y", "%B %d, %Y", "%b %d, %Y")`,
first success wins. -/
def tryFormats (l : List Char) : Option Date :=
  (strptimeYMD l).orElse fun _ =>
  (strptimeDMY l).orElse fun _ =>
  (strptimeMDY l).orElse fun _ =>
  (strptimeNamedDY fullMonthNames l).orElse fun _ =>
  strptimeNamedDY abbrMonthNames l

/-- `re.match(r'^(jan|feb|mar|apr|may|jun|jul|aug|sep|oct|nov|dec)[a-z]* \d{4}$', s)`. -/
def monthWordMatch (l : List Char) : Bool :=
  match l with
  | a :: b :: c :: rest =>
    if (abbrMonthNames.map Prod.snd).contains [a, b, c] then
      match rest.dropWhile (fun ch => 'a' ≤ ch && ch ≤ 'z') with
      | ' ' :: d1 :: d2 :: d3 :: d4 :: [] =>
        d1.isDigit && d2.isDigit && d3.isDigit && d4.isDigit
      | _ => false
    else false
  | _ => false

/-- The `in N unit` relative branch of `parse_date`.  `none` means the
branch falls through to the later rules: the prefix is absent, no digits
occur (the `AttributeError` is swallowed by the bare `except`), the unit
word is missing, or the addition overflows past year 9999 (the
`OverflowError` is swallowed by the same `except`). -/
def inBranchResult (today : Date) (l : List Char) : Option Date :=
  if List.isPrefixOf "in ".data l then
    match findNum l with
    | none => none
    | some n =>
      if containsSeq "day".data l then addDaysOpt today n
      else if containsSeq "week".data l then addDaysOpt today (7 * n)
      else if containsSeq "month".data l then addDaysOpt today (30 * n)
      else if containsSeq "year".data l then addDaysOpt today (365 * n)
      else none
  else none

/-- `parse_date` after lower-casing and stripping (chat.py lines 102-146).
Where Python would raise an uncaught `ValueError` constructing a date past
year 9999 (`next month` in December 9999, `next year` in 9999) the model
returns `none`. -/
def parseDateCore (today : Date) (l : List Char) : Option Date :=
  match inBranchResult today l with
  | some d => some d
  | none =>
    if l = "next month".data then
      mkValidDate (if today.month < 12 then today.year else today.year + 1)
        (if today.month < 12 then today.month + 1 else 1) 1
    else if l = "next year".data then
      mkValidDate (today.year + 1) 1 1
    else
      match tryFormats l with
      | some d => some d
      | none =>
        if monthWordMatch l then
          match strptimeNamedY fullMonthNames l with
          | some d => some d
          | none =>
            match strptimeNamedY abbrMonthNames l with
            | some d => some d
            | none => bareYear l
        else bareYear l
where
  /-- `re.match(r'^20\d{2}$', s)` then `date(int(s), 1, 1)`. -/
  bareYear : List Char → Option Date
  | ['2', '0', a, b] =>
    if a.isDigit ∧ b.isDigit then
      mkValidDate (2000 + 10 * cVal a + cVal b) 1 1
    else none
  | _ => none

/-- `parse_date(date_str)` (chat.py lines 95-146).  `today` is the value of
`datetime.date.today()`. -/
def parse_date (today : Date) (s : String) : Option Date :=
  if s.data = [] then none
  else parseDateCore today (pyStrip (pyLower s.data))

/-! ## `parse_currency` -/

/-- First maximal run of `[\d.]` characters
(models `re.search(r'[\d.]+', s)`). -/
def findNumRun : List Char → Option (List Char)
  | [] => none
  | c :: rest =>
    if c.isDigit || c == '.' then
      some (c :: rest.takeWhile (fun x => x.isDigit || x == '.'))
    else findNumRun rest

/-- The exact rational value of a decimal literal with integer digits `ip`
and fractional digits `frac`. -/
def decimalRat (ip frac : List Char) : ℚ :=
  mkRat (charsToNat ip * 10 ^ frac.length + charsToNat frac) (10 ^ frac.length)

/-- Python `float(s)` applied to a run of digits and dots: accepted when the
run has at most one dot and at least one digit (`"1."`, `".5"` are valid,
`"."` and `"1.2.3"` raise `ValueError`). -/
def pyFloatOfRun (l : List Char) : Option ℚ :=
  let intPart := l.takeWhile Char.isDigit
  let rest := l.dropWhile Char.isDigit
  match rest with
  | [] => if intPart = [] then none else some (decimalRat intPart [])
  | '.' :: frac =>
    if frac.all Char.isDigit then
      if intPart = [] ∧ frac = [] then none
      else some (decimalRat intPart frac)
    else none
  | _ => none

/-- `parse_currency(amount)` (chat.py lines 148-178), with Python floats
modelled by `ℚ` (exact for the decimal inputs and power-of-ten multipliers
the function handles). -/
def parse_currency (amount : String) : Option ℚ :=
  if amount.data = [] then none
  else
    let a := pyStrip ((pyLower amount.data).filter (fun c => !(c == ',')))
    match findNumRun a with
    | none => none
    | some run =>
      match pyFloatOfRun run with
      | none => none
      | some numeric_part =>
        if containsSeq "million".data a then some (numeric_part * 1000000)
        else if containsSeq "billion".data a then some (numeric_part * 1000000000)
        else if containsSeq "thousand".data a then some (numeric_part * 1000)
        else if containsSeq "m".data a && !containsSeq "million".data a then
          some (numeric_part * 1000000)
        else if containsSeq "b".data a && !containsSeq "billion".data a then
          some (numeric_part * 1000000000)
        else if containsSeq "k".data a then some (numeric_part * 1000)
        -- the final symbol check returns `numeric_part` in both branches
        else if a.any (fun c => c ∈ ['$', '£', '€', '¥']) then some numeric_part
        else some numeric_part

/-! ## JSON values (the decoded extraction-service responses) -/

/-- A decoded JSON value.  Responses of the extraction service that decode
successfully are JSON objects whose field values are such values. -/
inductive Json where
  | null : Json
  | bool (b : Bool) : Json
  | num (q : ℚ) : Json
  | str (s : String) : Json
  | arr (xs : List Json) : Json
  | obj (kvs : List (String × Json)) : Json

/-- A decoded JSON object: Python `dict` with string keys in insertion
order (keys unique in any dict produced by `json.loads`). -/
abbrev JObj := List (String × Json)

/-- `d[k]` lookup / `k in d` membership on the modelled dict. -/
def jLookup (d : JObj) (k : String) : Option Json :=
  (d.find? (fun p => p.1 == k)).map Prod.snd

/-- `d[k] = v` on the modelled dict (the key is present, so the binding is
replaced in place). -/
def jSet (d : JObj) (k : String) (v : Json) : JObj :=
  d.map (fun p => if p.1 == k then (p.1, v) else p)

/-- Python truthiness of a JSON value (`if not x`). -/
def jFalsy : Json → Bool
  | .null => true
  | .bool b => !b
  | .num q => q == 0
  | .str s => s.data.isEmpty
  | .arr xs => xs.isEmpty
  | .obj kvs => kvs.isEmpty

/-- Crude model of Python `str()` applied to a JSON value, used only to
build display text of confirmation messages (no claim inspects such text;
numeric rendering is a display-layer approximation). -/
def jsonShow : Json → String
  | .null => "None"
  | .bool b => if b then "True" else "False"
  | .num q => toString q
  | .str s => s
  | .arr _ => "[...]"
  | .obj _ => "{...}"

/-- Python `float(v)` applied to a JSON value: numbers pass through, bools
coerce to 0/1, numeric strings are parsed, everything else raises
(`none` models the `TypeError`/`ValueError`).  String parsing covers the
sign/digits/dot/exponent literals (`"inf"`/`"nan"` are not modelled). -/
def pyFloat : Json → Option ℚ
  | .num q => some q
  | .bool b => some (if b then 1 else 0)
  | .str s => pyFloatOfString (pyStrip s.data)
  | _ => none
where
  readMantissa (l : List Char) : Option (ℚ × List Char) :=
    let intPart := l.takeWhile Char.isDigit
    let rest := l.dropWhile Char.isDigit
    match rest with
    | '.' :: r2 =>
      let frac := r2.takeWhile Char.isDigit
      if intPart = [] ∧ frac = [] then none
      else some (decimalRat intPart frac, r2.dropWhile Char.isDigit)
    | _ => if intPart = [] then none else some (decimalRat intPart [], rest)
  readExp (l : List Char) : Option ℚ :=
    match l with
    | [] => some 0
    | 'e' :: r | 'E' :: r =>
      let (sgn, r2) : ℚ × List Char :=
        match r with
        | '+' :: r2 => (1, r2)
        | '-' :: r2 => (-1, r2)
        | _ => (1, r)
      if r2 ≠ [] ∧ r2.all Char.isDigit then some (sgn * charsToNat r2) else none
    | _ => none
  pyFloatOfString (l : List Char) : Option ℚ :=
    let (sgn, body) : ℚ × List Char :=
      match l with
      | '+' :: r => (1, r)
      | '-' :: r => (-1, r)
      | _ => (1, l)
    match readMantissa body with
    | none => none
    | some (m, rest) =>
      match readExp rest with
      | none => none
      | some e => some (sgn * m * (10 : ℚ) ^ (e.num))

/-- `parse_date` applied to a JSON value, as the source does at
chat.py lines 268-269, 306 and 372: strings go through `parse_date`,
falsy non-strings short-circuit to `None` via `if not date_str`, and truthy
non-strings raise `AttributeError` on `.lower()` (modelled by `.error`). -/
def pyParseDateVal (today : Date) : Json → Except Unit (Option Date)
  | .str s => .ok (parse_date today s)
  | v => if jFalsy v then .ok none else .error ()

/-! ## The fact-find data model

Modelled from the spec: the dataclasses `User`, `Goal`, `GoalType`,
`NewHomeGoalInformation`, `NewCarInformation` and `OtherGoalInformation`
live in `factfind.py`, which is not part of the provided sources; their
shapes follow spec section 3 (Person / Goal / detail payloads) and the
field names used by `chat.py`. -/

/-- Goal kinds. -/
inductive GoalType where
  | NEW_HOME | NEW_CAR | OTHER
  deriving DecidableEq, Repr

/-- Detail payload of a new-home goal. -/
structure NewHomeGoalInformation where
  location : String
  house_price : ℚ
  deposit_amount : ℚ
  purchase_date : Option Date
  deriving DecidableEq, Repr

/-- Detail payload of a new-car goal. -/
structure NewCarInformation where
  car_type : String
  car_price : ℚ
  purchase_date : Option Date
  deriving DecidableEq, Repr

/-- Detail payload of an other goal. -/
structure OtherGoalInformation where
  description : String
  amount_required : ℚ
  target_date : Option Date
  deriving DecidableEq, Repr

/-- The kind-specific payload attached to a goal. -/
inductive GoalSpecificInformation where
  | home (i : NewHomeGoalInformation)
  | car (i : NewCarInformation)
  | other (i : OtherGoalInformation)
  deriving DecidableEq, Repr

/-- A financial goal. -/
structure Goal where
  goal_type : GoalType
  goal_name : String
  goal_specific_information : Option GoalSpecificInformation
  deriving DecidableEq, Repr

/-- The person being fact-found. -/
structure User where
  first_name : String
  last_name : String
  date_of_birth : Option Date
  email : String
  goals : List Goal
  deriving DecidableEq, Repr

/-! ## Conversation model (chat.py lines 29-93) -/

/-- `STOP_COMMANDS = {"exit", "quit", "stop", "done"}`. -/
def STOP_COMMANDS : List (List Char) :=
  ["exit".data, "quit".data, "stop".data, "done".data]

/-- Message sender. -/
inductive Sender where
  | USER | AI
  deriving DecidableEq, Repr

/-- One transcript message. -/
structure Message where
  text : String
  sender : Sender
  deriving DecidableEq, Repr

/-- `ConversationStage`. -/
inductive ConversationStage where
  | GET_USER_INFO | GET_GOAL_TYPE | GET_GOAL_DETAILS
  | CONFIRM_GOAL | ADD_ANOTHER_GOAL | COMPLETED
  deriving DecidableEq, BEq, Repr

/-- `ExtractedInformation`: the gathered-information snapshot. -/
structure ExtractedInformation where
  user : Option User := none
  pending_goal : Option Goal := none
  conversation_stage : ConversationStage := .GET_USER_INFO
  deriving DecidableEq, Repr

/-- `ConversationState`. -/
structure ConversationState where
  finished : Bool := false
  messages : List Message := []
  new_messages : List Message := []
  extracted_information : ExtractedInformation := {}
  deriving DecidableEq, Repr

/-- The state a conversation starts from. -/
def initConversationState : ConversationState :=
  { finished := false, messages := [], new_messages := [],
    extracted_information :=
      { user := none, pending_goal := none,
        conversation_stage := .GET_USER_INFO } }

/-! ## Extraction adapter (chat.py lines 180-278)

The prompt construction, the `llm` network call, the code-fence stripping
and `json.loads` form the external boundary of the model: `oracle = none`
stands for a failed call, an empty response, or a response that does not
decode to JSON; `oracle = some data` stands for a response that decoded to
the JSON object `data`. -/

/-- `extract_user_info(text)` (chat.py lines 180-210): every failure mode
of the call/decode yields the empty dict. -/
def extract_user_info (oracle : Option JObj) : JObj :=
  match oracle with
  | none => []
  | some data => data

/-- The date re-validation of `extract_goal_details` on the value found
under `date_key`: replace the field by `str(parsed_date)` on success, fail
the extraction on a failed parse or on the exception a truthy non-string
raises (caught by the surrounding `try`). -/
def dateGuard (today : Date) (data : JObj) (key : String) (v : Json) : Option JObj :=
  match pyParseDateVal today v with
  | .error _ => none
  | .ok none => none
  | .ok (some d) => some (jSet data key (.str (isoFormat d)))

/-- `extract_goal_details(text, goal_type)` (chat.py lines 212-278): on a
decoded object, the date-bearing field (`purchase_date` preferred over
`target_date`) is re-parsed through `parse_date`; failure of that re-parse
- including the `AttributeError` a truthy non-string value raises, which
the surrounding `try` converts to `None` - fails the whole extraction,
success replaces the field by `str(parsed_date)`.  `goal_type` only selects
the prompt, so it does not affect the result. -/
def extract_goal_details (today : Date) (oracle : Option JObj)
    (_goal_type : GoalType) : Option JObj :=
  match oracle with
  | none => none
  | some data =>
    -- `if 'purchase_date' in data or 'target_date' in data:` with
    -- `date_key = 'purchase_date' if 'purchase_date' in data else 'target_date'`
    match jLookup data "purchase_date", jLookup data "target_date" with
    | some v, _ => dateGuard today data "purchase_date" v
    | none, some v => dateGuard today data "target_date" v
    | none, none => some data

/-! ## Dialogue engine (chat.py lines 280-463)

`chat_response` returns `none` when the Python function would raise an
uncaught exception, and otherwise `some (newState, ext)` where `ext` is the
final contents of the `extracted` object - the in-place mutated
`state.extracted_information` the input state still references after the
call (CPython aliases it into the returned state as well). -/

/-- Fixed message texts of the engine (chat.py string literals). -/
def ackText : String := "Thank you for providing your financial goals information."

/-- Display rendering of an optional date in an f-string (`str(None)` is
`"None"`). -/
def showOptDate : Option Date → String
  | some d => isoFormat d
  | none => "None"

/-- Digits of a natural number, most significant first (fuel-based so that
kernel reduction works). -/
def natCharsAux : Nat → Nat → List Char → List Char
  | 0, _, acc => acc
  | fuel + 1, n, acc =>
    if n < 10 then digitChar n :: acc
    else natCharsAux fuel (n / 10) (digitChar (n % 10) :: acc)

/-- Decimal rendering of a natural number. -/
def natChars (n : Nat) : List Char := natCharsAux (n + 1) n []

/-- Insert thousands separators into a reversed digit list. -/
def commaRevAux : List Char → Nat → List Char
  | [], _ => []
  | c :: rest, n =>
    if n = 2 then
      c :: (match rest with | [] => [] | _ => ',' :: commaRevAux rest 0)
    else c :: commaRevAux rest (n + 1)

/-- Round half to even to an integer (decimal rounding of `"{:,.2f}"`). -/
def roundHalfEven (x : ℚ) : ℤ :=
  let f := ⌊x⌋
  let r := x - f
  if r < 1 / 2 then f
  else if 1 / 2 < r then f + 1
  else if f % 2 = 0 then f else f + 1

/-- Python `"{:,.2f}".format(x)` - thousands separators and two decimals
(display-layer approximation over `ℚ`; no claim inspects this text). -/
def fmtComma2 (q : ℚ) : String :=
  let sign := if q < 0 then "-" else ""
  let cents := (roundHalfEven (|q| * 100)).toNat
  sign ++ String.mk ((commaRevAux (natChars (cents / 100)).reverse 0).reverse)
    ++ "." ++ String.mk (pad2 (cents % 100))

/-- `goal_details.get(key, "")` rendered for storage in a string field of a
detail payload (Python would store the raw value; claims only exercise
string or missing values, where this is exact). -/
def jGetStr (d : JObj) (k : String) : String :=
  match jLookup d k with
  | none => ""
  | some (.str s) => s
  | some v => jsonShow v

/-- `float(goal_details.get(key, 0))`: `none` models the uncaught
`TypeError`/`ValueError` of a non-numeric value. -/
def jGetFloat (d : JObj) (k : String) : Option ℚ :=
  match jLookup d k with
  | none => some 0
  | some v => pyFloat v

/-- `goal_details.get(key, "")` as the raw JSON value. -/
def jGetD (d : JObj) (k : String) : Json :=
  (jLookup d k).getD (.str "")

/-- The `GET_USER_INFO` branch (chat.py lines 300-320).  The model requires
the name and email values to be JSON strings (Python would store any JSON
value in the dataclass; no claim exercises non-string values there).  A
truthy non-string `date_of_birth` makes `parse_date` raise, uncaught here. -/
def stepUserInfo (today : Date) (oracle : Option JObj)
    (ext : ExtractedInformation) : Option (List Message × ExtractedInformation) :=
  -- `user_info = extract_user_info(last_message)`
  if (["first_name", "last_name", "date_of_birth", "email"].all
      fun k => (jLookup (extract_user_info oracle) k).isSome) then
    match jLookup (extract_user_info oracle) "first_name",
          jLookup (extract_user_info oracle) "last_name",
          jLookup (extract_user_info oracle) "date_of_birth",
          jLookup (extract_user_info oracle) "email" with
    | some (.str fn), some (.str ln), some dobV, some (.str em) =>
      match pyParseDateVal today dobV with
      | .error _ => none
      | .ok dob =>
        some ([⟨"Thank you! What financial goal would you like to discuss? (new home/new car/other)", .AI⟩],
          { ext with
            user := some ⟨fn, ln, dob, em, []⟩,
            conversation_stage := .GET_GOAL_TYPE })
    | _, _, _, _ => none
  else
    some ([⟨"Please provide your full name, date of birth (YYYY-MM-DD), and email", .AI⟩], ext)

/-- The `GET_GOAL_TYPE` branch (chat.py lines 323-360). -/
def stepGoalType (last_message : String) (ext : ExtractedInformation) :
    List Message × ExtractedInformation :=
  -- `goal_type = last_message.lower()`
  if containsSeq "home".data (pyLower last_message.data) then
    ([⟨"Please tell me about the home you want to buy (location, price, deposit, and timeline)", .AI⟩],
     { ext with
       pending_goal := some ⟨.NEW_HOME, "Buy a new home", none⟩,
       conversation_stage := .GET_GOAL_DETAILS })
  else if containsSeq "car".data (pyLower last_message.data) then
    ([⟨"Please tell me about the car you want to buy (make/model, price, and timeline)", .AI⟩],
     { ext with
       pending_goal := some ⟨.NEW_CAR, "Buy a new car", none⟩,
       conversation_stage := .GET_GOAL_DETAILS })
  else
    ([⟨"Please describe your financial goal (what you want to achieve, how much money you\x27ll need, and by when)", .AI⟩],
     { ext with
       pending_goal := some ⟨.OTHER, "Other financial goal", none⟩,
       conversation_stage := .GET_GOAL_DETAILS })

/-- The home confirmation message (chat.py lines 376-379). -/
def confirmHomeMsg (info : NewHomeGoalInformation) : Message :=
  ⟨"Confirm: Buy home in " ++ info.location ++ " for $" ++ fmtComma2 info.house_price
    ++ " with $" ++ fmtComma2 info.deposit_amount ++ " deposit by "
    ++ showOptDate info.purchase_date ++ "? (yes/no)", .AI⟩

/-- The car confirmation message (chat.py lines 389-392). -/
def confirmCarMsg (info : NewCarInformation) : Message :=
  ⟨"Confirm: Buy " ++ info.car_type ++ " for $" ++ fmtComma2 info.car_price
    ++ " by " ++ showOptDate info.purchase_date ++ "? (yes/no)", .AI⟩

/-- The other-goal confirmation message (chat.py lines 402-405). -/
def confirmOtherMsg (info : OtherGoalInformation) : Message :=
  ⟨"Confirm: " ++ info.description ++ " requiring $" ++ fmtComma2 info.amount_required
    ++ " by " ++ showOptDate info.target_date ++ "? (yes/no)", .AI⟩

/-- The `GET_GOAL_DETAILS` branch (chat.py lines 364-421).  `none` models
the uncaught exceptions: `pending_goal` being `None`
(`AttributeError` on `.goal_type`), a non-numeric price field
(`float(...)` raising), or `parse_date` raising on a truthy non-string
date value. -/
def stepGoalDetails (today : Date) (oracle : Option JObj)
    (ext : ExtractedInformation) : Option (List Message × ExtractedInformation) :=
  match ext.pending_goal with
  | none => none
  | some pg =>
    match extract_goal_details today oracle pg.goal_type with
    | some goal_details =>
      match pg.goal_type with
      | .NEW_HOME =>
        match jGetFloat goal_details "house_price",
              jGetFloat goal_details "deposit_amount",
              pyParseDateVal today (jGetD goal_details "purchase_date") with
        | some hp, some dep, .ok pd =>
          some ([confirmHomeMsg ⟨jGetStr goal_details "location", hp, dep, pd⟩],
            { ext with
              pending_goal := some { pg with goal_specific_information := some (.home ⟨jGetStr goal_details "location", hp, dep, pd⟩) },
              conversation_stage := .CONFIRM_GOAL })
        | _, _, _ => none
      | .NEW_CAR =>
        match jGetFloat goal_details "car_price",
              pyParseDateVal today (jGetD goal_details "purchase_date") with
        | some cp, .ok pd =>
          some ([confirmCarMsg ⟨jGetStr goal_details "car_type", cp, pd⟩],
            { ext with
              pending_goal := some { pg with goal_specific_information := some (.car ⟨jGetStr goal_details "car_type", cp, pd⟩) },
              conversation_stage := .CONFIRM_GOAL })
        | _, _ => none
      | .OTHER =>
        match jGetFloat goal_details "amount_required",
              pyParseDateVal today (jGetD goal_details "target_date") with
        | some ar, .ok td =>
          some ([confirmOtherMsg ⟨jGetStr goal_details "description", ar, td⟩],
            { ext with
              pending_goal := some { pg with goal_specific_information := some (.other ⟨jGetStr goal_details "description", ar, td⟩) },
              conversation_stage := .CONFIRM_GOAL })
        | _, _ => none
    | none =>
      match pg.goal_type with
      | .NEW_HOME =>
        some ([⟨"I couldn\x27t understand those home details. Please provide: location, price, deposit, and timeline (e.g. \x27Buy $1.5M home in London with 50k deposit in 3 years\x27)", .AI⟩], ext)
      | .NEW_CAR =>
        some ([⟨"I couldn\x27t understand those car details. Please provide: make/model, price, and timeline (e.g. \x27Buy a Tesla Model 3 for $40k in 6 months\x27)", .AI⟩], ext)
      | .OTHER =>
        some ([⟨"I couldn\x27t understand that goal. Please describe what you want to achieve, how much money you\x27ll need, and by when (e.g. \x27Start a business needing $50k by 2025\x27)", .AI⟩], ext)

/-- The `CONFIRM_GOAL` branch (chat.py lines 424-439).  On a yes with no
constructed user Python raises `AttributeError` (`none`); on a yes with a
`None` pending goal Python would append `None` to the goal list, which the
spec-modelled `User.goals : List Goal` cannot represent - that state is
unreachable (see the pending-goal invariant), and the model returns `none`
there. -/
def stepConfirm (last_message : String) (ext : ExtractedInformation) :
    Option (List Message × ExtractedInformation) :=
  if List.isPrefixOf "y".data (pyLower last_message.data) then
    match ext.user, ext.pending_goal with
    | some u, some g =>
      some ([⟨"Goal saved! Would you like to add another goal? (yes/no)", .AI⟩],
        { ext with
          user := some { u with goals := u.goals ++ [g] },
          pending_goal := none,
          conversation_stage := .ADD_ANOTHER_GOAL })
    | _, _ => none
  else
    some ([⟨"Okay, let\x27s try again. What goal would you like to discuss? (new home/new car/other)", .AI⟩],
      { ext with pending_goal := none, conversation_stage := .GET_GOAL_TYPE })

/-- The `ADD_ANOTHER_GOAL` branch (chat.py lines 442-456). -/
def stepAddAnother (last_message : String) (ext : ExtractedInformation) :
    List Message × ExtractedInformation :=
  if List.isPrefixOf "y".data (pyLower last_message.data) then
    ([⟨"What other financial goal would you like to discuss? (new home/new car/other)", .AI⟩],
     { ext with conversation_stage := .GET_GOAL_TYPE })
  else
    ([⟨ackText, .AI⟩], { ext with conversation_stage := .COMPLETED })

/-- The stage dispatch of the `elif` chain: no branch handles `COMPLETED`,
so the function falls through to the final `return` with no new messages
and an unchanged snapshot. -/
def stepStage (today : Date) (oracle : Option JObj) (last_message : String)
    (ext : ExtractedInformation) : Option (List Message × ExtractedInformation) :=
  match ext.conversation_stage with
  | .GET_USER_INFO => stepUserInfo today oracle ext
  | .GET_GOAL_TYPE => some (stepGoalType last_message ext)
  | .GET_GOAL_DETAILS => stepGoalDetails today oracle ext
  | .CONFIRM_GOAL => stepConfirm last_message ext
  | .ADD_ANOTHER_GOAL => some (stepAddAnother last_message ext)
  | .COMPLETED => some ([], ext)

/-- The text of `state.messages[-1]`, or `""` on an empty transcript
(chat.py line 282). -/
def lastMsgText (state : ConversationState) : String :=
  match state.messages.getLast? with
  | some m => m.text
  | none => ""

/-- `last_message.lower().strip()`. -/
def pyNorm (s : String) : List Char := pyStrip (pyLower s.data)

/-- `chat_response(state)` (chat.py lines 280-463).  `today` is
`datetime.date.today()`, `oracle` is the decoded extraction-service
response of this turn (see the extraction adapter above).  The result is
`none` when Python would raise, otherwise `some (newState, ext)` with
`ext` the final contents of the in-place mutated
`state.extracted_information` object (which the returned state aliases). -/
def chat_response (today : Date) (oracle : Option JObj)
    (state : ConversationState) : Option (ConversationState × ExtractedInformation) :=
  if pyNorm (lastMsgText state) ∈ STOP_COMMANDS then
    some ({ finished := true,
            messages := state.messages ++ state.new_messages,
            new_messages := [⟨ackText, .AI⟩],
            extracted_information :=
              { state.extracted_information with conversation_stage := .COMPLETED } },
          { state.extracted_information with conversation_stage := .COMPLETED })
  else
    match stepStage today oracle (lastMsgText state) state.extracted_information with
    | none => none
    | some (msgs, ext) =>
      some ({ finished := ext.conversation_stage == .COMPLETED,
              messages := state.messages ++ state.new_messages,
              new_messages := msgs,
              extracted_information := ext }, ext)

/-- One user turn as driven by a caller: the utterance is appended to the
transcript and the engine advances (the new state is the first component;
the second is the aliased snapshot). -/
def userTurn (today : Date) (oracle : Option JObj) (utt : String)
    (s : ConversationState) : Option ConversationState :=
  (chat_response today oracle
    { s with messages := s.messages ++ [⟨utt, .USER⟩] }).map Prod.fst

/-- States reachable from the initial conversation state by repeated
turns, with arbitrary utterances and arbitrary extraction-service
responses. -/
inductive Reachable (today : Date) : ConversationState → Prop where
  | init : Reachable today initConversationState
  | step {s s' : ConversationState} {oracle : Option JObj} {utt : String} :
      Reachable today s → userTurn today oracle utt s = some s' →
      Reachable today s'

/-- The stages at which the spec requires a pending goal. -/
def stageWantsPending (st : ConversationStage) : Prop :=
  st = .GET_GOAL_DETAILS ∨ st = .CONFIRM_GOAL

instance : DecidablePred stageWantsPending := fun st => by
  unfold stageWantsPending; infer_instance

/-- The invariant the engine actually maintains: the stages that collect or
confirm goal details always hold a pending goal, and a pending goal can
survive only into those stages or - via the stop command, which does not
clear it - into `COMPLETED`. -/
def pendingInv (ext : ExtractedInformation) : Prop :=
  (stageWantsPending ext.conversation_stage → ext.pending_goal.isSome) ∧
  (ext.pending_goal.isSome →
    stageWantsPending ext.conversation_stage ∨ ext.conversation_stage = .COMPLETED)

instance : DecidablePred pendingInv := fun ext => by
  unfold pendingInv; infer_instance

/-! ## Concrete scenario data used by witnesses and counterexamples -/

/-- A fixed value for `datetime.date.today()`. -/
def exToday : Date := ⟨2026, 10, 12⟩

/-- A decoded identity-extraction response with all four required fields. -/
def exUserObj : JObj :=
  [("first_name", .str "John"), ("last_name", .str "Smith"),
   ("date_of_birth", .str "1990-05-01"), ("email", .str "john@example.com")]

/-- The user as constructed from `exUserObj`. -/
def exUser : User := ⟨"John", "Smith", some ⟨1990, 5, 1⟩, "john@example.com", []⟩

/-- State after turn 1 (identity collected). -/
def exS1 : ConversationState :=
  { finished := false,
    messages := [⟨"I am John Smith", .USER⟩],
    new_messages := [⟨"Thank you! What financial goal would you like to discuss? (new home/new car/other)", .AI⟩],
    extracted_information :=
      { user := some exUser, pending_goal := none,
        conversation_stage := .GET_GOAL_TYPE } }

/-- State after turn 2 (goal kind chosen, pending goal constructed). -/
def exS2 : ConversationState :=
  { finished := false,
    messages := [⟨"I am John Smith", .USER⟩, ⟨"home", .USER⟩,
                 ⟨"Thank you! What financial goal would you like to discuss? (new home/new car/other)", .AI⟩],
    new_messages := [⟨"Please tell me about the home you want to buy (location, price, deposit, and timeline)", .AI⟩],
    extracted_information :=
      { user := some exUser,
        pending_goal := some ⟨.NEW_HOME, "Buy a new home", none⟩,
        conversation_stage := .GET_GOAL_DETAILS } }

/-- State after turn 3 (the stop command issued while collecting goal
details): stage `COMPLETED` with the pending goal still present. -/
def exS3 : ConversationState :=
  { finished := true,
    messages := [⟨"I am John Smith", .USER⟩, ⟨"home", .USER⟩,
                 ⟨"Thank you! What financial goal would you like to discuss? (new home/new car/other)", .AI⟩,
                 ⟨"stop", .USER⟩,
                 ⟨"Please tell me about the home you want to buy (location, price, deposit, and timeline)", .AI⟩],
    new_messages := [⟨ackText, .AI⟩],
    extracted_information :=
      { user := some exUser,
        pending_goal := some ⟨.NEW_HOME, "Buy a new home", none⟩,
        conversation_stage := .COMPLETED } }

/-- A decoded goal-details response carrying no date field at all. -/
def exNoDateObj : JObj := [("description", Json.str "start a business")]

/-- A conversation state sitting at `GET_GOAL_DETAILS` for an `OTHER` goal. -/
def exDetailsState : ConversationState :=
  { finished := false,
    messages := [⟨"start a business", .USER⟩],
    new_messages := [],
    extracted_information :=
      { user := some exUser,
        pending_goal := some ⟨.OTHER, "Other financial goal", none⟩,
        conversation_stage := .GET_GOAL_DETAILS } }

/-- A state at `CONFIRM_GOAL` whose latest utterance is an (upper-case,
padded) stop word. -/
def exStopState : ConversationState :=
  { finished := false,
    messages := [⟨" STOP ", .USER⟩],
    new_messages := [],
    extracted_information :=
      { user := some exUser,
        pending_goal := some ⟨.NEW_CAR, "Buy a new car", none⟩,
        conversation_stage := .CONFIRM_GOAL } }

/-- A finished state receiving one more (non-stop) utterance. -/
def exDoneState : ConversationState :=
  { finished := true,
    messages := [⟨"hello again", .USER⟩],
    new_messages := [],
    extracted_information :=
      { user := some exUser, pending_goal := none,
        conversation_stage := .COMPLETED } }

/-- A fresh state whose latest utterance is `"home"` (stage
`GET_GOAL_TYPE`). -/
def exHomeState : ConversationState :=
  { finished := false,
    messages := [⟨"home", .USER⟩],
    new_messages := [],
    extracted_information :=
      { user := some exUser, pending_goal := none,
        conversation_stage := .GET_GOAL_TYPE } }

/-- A state at `CONFIRM_GOAL` answering `"yes"`. -/
def exConfirmState : ConversationState :=
  { finished := false,
    messages := [⟨"yes", .USER⟩],
    new_messages := [],
    extracted_information :=
      { user := some exUser,
        pending_goal := some ⟨.NEW_CAR, "Buy a new car", none⟩,
        conversation_stage := .CONFIRM_GOAL } }

/-- The turn result on the fresh initial state with a failed extraction:
the generic identity re-prompt. -/
def exInitResult : ConversationState × ExtractedInformation :=
  ({ finished := false, messages := [],
     new_messages := [⟨"Please provide your full name, date of birth (YYYY-MM-DD), and email", .AI⟩],
     extracted_information :=
       { user := none, pending_goal := none, conversation_stage := .GET_USER_INFO } },
   { user := none, pending_goal := none, conversation_stage := .GET_USER_INFO })

/-! ## Claim C7 - currency normalisation examples -/

unseal Rat.mul in
/-- Claim C7: `parse_currency` maps `"1.5M"` to 1 500 000, `"20k"` to
20 000, `"$500"` to 500 and the empty string to `none`; the multiplier
scan order is the one of the source's `elif` chain - witnessed further by
`"3km"`, where the bare-`"m"` rule outranks `"k"`. -/
theorem c7_parse_currency_examples :
    parse_currency "1.5M" = some 1500000 ∧
    parse_currency "20k" = some 20000 ∧
    parse_currency "$500" = some 500 ∧
    parse_currency "" = none ∧
    parse_currency "3km" = some 3000000 := by
  refine ⟨?_, ?_, ?_, ?_, ?_⟩ <;> decide

/-! ## Claim C9 - goal data without a date is accepted -/

/-- Claim C9: a decoded goal-details response with neither `purchase_date`
nor `target_date` passes `extract_goal_details` untouched (the date guard
is skipped), and the turn at `GET_GOAL_DETAILS` moves to `CONFIRM_GOAL`
with the date field `none` and the missing numeric field defaulted to 0. -/
theorem c9_no_date_accepted :
    extract_goal_details exToday (some exNoDateObj) .OTHER = some exNoDateObj ∧
    (chat_response exToday (some exNoDateObj) exDetailsState).map
        (fun r => (r.2.conversation_stage, r.2.pending_goal)) =
      some (.CONFIRM_GOAL,
        some ⟨.OTHER, "Other financial goal",
          some (.other ⟨"start a business", 0, none⟩)⟩) :=
  ⟨rfl, by decide⟩

/-! ## Claim C3 - the stop-word guard -/

/-- Claim C3: whenever the latest utterance lower-cases and strips to a
stop word, the engine - from any of the six stages, before any stage
dispatch - finishes the conversation: `finished = true`, stage
`COMPLETED`, and the closing acknowledgment as the turn's one new
message. -/
theorem c3_stop_guard (today : Date) (oracle : Option JObj)
    (s : ConversationState) (h : pyNorm (lastMsgText s) ∈ STOP_COMMANDS) :
    ∃ s' ext', chat_response today oracle s = some (s', ext') ∧
      s'.finished = true ∧
      s'.extracted_information.conversation_stage = .COMPLETED ∧
      s'.new_messages = [⟨ackText, .AI⟩] := by
  unfold chat_response
  rw [if_pos h]
  exact ⟨_, _, rfl, rfl, rfl, rfl⟩

/-- Witness for C3 at a concrete `CONFIRM_GOAL` state whose utterance is
`" STOP "`. -/
theorem c3_stop_guard_witness :
    ∃ s' ext', chat_response exToday none exStopState = some (s', ext') ∧
      s'.finished = true ∧
      s'.extracted_information.conversation_stage = .COMPLETED ∧
      s'.new_messages = [⟨ackText, .AI⟩] :=
  c3_stop_guard exToday none exStopState (by decide)

/-! ## Claim C10 - `COMPLETED` is absorbing -/

/-- Claim C10: from a `COMPLETED` state every further turn stays
`COMPLETED` with `finished = true`; a non-stop utterance falls through the
whole `elif` chain, so the turn produces no new message. -/
theorem c10_done_absorbing (today : Date) (oracle : Option JObj)
    (s : ConversationState)
    (h : s.extracted_information.conversation_stage = .COMPLETED) :
    ∃ s' ext', chat_response today oracle s = some (s', ext') ∧
      s'.extracted_information.conversation_stage = .COMPLETED ∧
      s'.finished = true ∧
      (pyNorm (lastMsgText s) ∉ STOP_COMMANDS → s'.new_messages = []) := by
  unfold chat_response
  by_cases hstop : pyNorm (lastMsgText s) ∈ STOP_COMMANDS
  · rw [if_pos hstop]
    exact ⟨_, _, rfl, rfl, rfl, fun hn => absurd hstop hn⟩
  · rw [if_neg hstop]
    simp only [stepStage, h]
    exact ⟨_, _, rfl, h, by simp only [h]; rfl, fun _ => rfl⟩

/-- Witness for C10 at a concrete finished state with utterance
`"hello again"`. -/
theorem c10_done_absorbing_witness :
    ∃ s' ext', chat_response exToday none exDoneState = some (s', ext') ∧
      s'.extracted_information.conversation_stage = .COMPLETED ∧
      s'.finished = true ∧
      (pyNorm (lastMsgText exDoneState) ∉ STOP_COMMANDS → s'.new_messages = []) :=
  c10_done_absorbing exToday none exDoneState rfl

/-! ## Claim C2 - purity of `chat_response`

The claim fails on the source: `chat_response` mutates
`state.extracted_information` in place (stage reassignments, `user`
assignment, `goals.append`), so the objects reachable from the input state
are *not* unchanged.  In the embedding the second component of the result
is exactly the post-call contents of the input state's snapshot object. -/

/-- Counterexample to claim C2 as stated: after a turn on a concrete
`GET_GOAL_TYPE` state, the gathered-information snapshot the input state
still references no longer equals its pre-call value (its stage and
pending goal were mutated in place). -/
theorem c2_purity_counterexample :
    (chat_response exToday none exHomeState).map Prod.snd ≠
      some exHomeState.extracted_information := by decide

/-- Claim C2, amended: all updates of a turn are visible in the returned
state, whose transcript is the input transcript plus the previous turn's
new messages, and whose gathered-information snapshot is exactly the
in-place mutated snapshot of the input state (the two alias). -/
theorem c2_alias_amended (today : Date) (oracle : Option JObj)
    (s : ConversationState) (r : ConversationState × ExtractedInformation)
    (h : chat_response today oracle s = some r) :
    r.1.extracted_information = r.2 ∧
    r.1.messages = s.messages ++ s.new_messages := by
  unfold chat_response at h
  split at h
  · cases h; exact ⟨rfl, rfl⟩
  · split at h
    · exact Option.noConfusion h
    · cases h; exact ⟨rfl, rfl⟩

/-- Witness for the amended C2 at the initial state with a failed
extraction call. -/
theorem c2_alias_amended_witness :
    exInitResult.1.extracted_information = exInitResult.2 ∧
    exInitResult.1.messages =
      initConversationState.messages ++ initConversationState.new_messages :=
  c2_alias_amended exToday none initConversationState exInitResult (by decide)

/-! ## Claim C5 - the goal-detail date guard -/

/-- The date-bearing field the source selects: `purchase_date` when
present, else `target_date`, with its value. -/
def getDateField (data : JObj) : Option (String × Json) :=
  match jLookup data "purchase_date" with
  | some v => some ("purchase_date", v)
  | none =>
    match jLookup data "target_date" with
    | some v => some ("target_date", v)
    | none => none

/-- The outcome of the Temporal Normalizer on a date-field value, with the
exception a truthy non-string raises collapsed into `none` (the
surrounding `try` of `extract_goal_details` treats both as failure). -/
def dateFieldParse (today : Date) (v : Json) : Option Date :=
  match pyParseDateVal today v with
  | .error _ => none
  | .ok o => o

/-- Claim C5: for every goal kind and every decoded response carrying a
date-bearing field, a failed `parse_date` on that field's value fails the
whole extraction - whatever the other fields hold - while a successful
parse replaces the field by the normalised ISO date and returns the field
map. -/
theorem c5_goal_date_guard (today : Date) (kind : GoalType) (data : JObj)
    (k : String) (v : Json) (hk : getDateField data = some (k, v)) :
    (dateFieldParse today v = none →
      extract_goal_details today (some data) kind = none) ∧
    (∀ d, dateFieldParse today v = some d →
      extract_goal_details today (some data) kind =
        some (jSet data k (.str (isoFormat d)))) := by
  unfold getDateField at hk
  have hred : extract_goal_details today (some data) kind =
      match jLookup data "purchase_date", jLookup data "target_date" with
      | some v, _ => dateGuard today data "purchase_date" v
      | none, some v => dateGuard today data "target_date" v
      | none, none => some data := rfl
  rw [hred]
  have main : ∀ key vv, dateFieldParse today v = dateFieldParse today vv →
      (dateFieldParse today v = none → dateGuard today data key vv = none) ∧
      (∀ d, dateFieldParse today v = some d →
        dateGuard today data key vv = some (jSet data key (.str (isoFormat d)))) := by
    intro key vv hvv
    unfold dateGuard
    cases hpd : pyParseDateVal today vv with
    | error e =>
      refine ⟨fun _ => rfl, fun d hd => ?_⟩
      rw [hvv] at hd; unfold dateFieldParse at hd; rw [hpd] at hd; cases hd
    | ok o =>
      cases o with
      | none =>
        refine ⟨fun _ => rfl, fun d hd => ?_⟩
        rw [hvv] at hd; unfold dateFieldParse at hd; rw [hpd] at hd; cases hd
      | some d0 =>
        constructor
        · intro h0
          rw [hvv] at h0; unfold dateFieldParse at h0; rw [hpd] at h0; cases h0
        · intro d hd
          rw [hvv] at hd; unfold dateFieldParse at hd; rw [hpd] at hd
          obtain rfl := Option.some.inj hd
          rfl
  cases hp : jLookup data "purchase_date" with
  | some vp =>
    rw [hp] at hk
    obtain ⟨rfl, rfl⟩ : "purchase_date" = k ∧ vp = v := by simpa using hk
    exact main "purchase_date" vp rfl
  | none =>
    rw [hp] at hk
    cases ht : jLookup data "target_date" with
    | none => rw [ht] at hk; cases hk
    | some vt =>
      rw [ht] at hk
      obtain ⟨rfl, rfl⟩ : "target_date" = k ∧ vt = v := by simpa using hk
      exact main "target_date" vt rfl

/-- Witness for C5: a response whose `target_date` value `"soon"` defeats
`parse_date`, so the extraction fails even though the other field
parsed. -/
theorem c5_goal_date_guard_witness :
    extract_goal_details exToday
      (some [("description", Json.str "start a business"),
             ("target_date", Json.str "soon")]) .OTHER = none :=
  (c5_goal_date_guard exToday .OTHER
    [("description", Json.str "start a business"), ("target_date", Json.str "soon")]
    "target_date" (.str "soon") rfl).1 rfl

/-! ## Claim C4 - the `CONFIRM_GOAL` branch -/

/-- Claim C4: at `CONFIRM_GOAL` with a pending goal and a constructed
user, a non-stop utterance whose lower-casing starts with `"y"` commits
the pending goal (appended to the user's goals, pending cleared, stage
`ADD_ANOTHER_GOAL`); any other non-stop utterance discards the pending
goal, leaves the goal list untouched and moves back to `GET_GOAL_TYPE`. -/
theorem c4_confirm_branch (today : Date) (oracle : Option JObj)
    (s : ConversationState) (u : User) (g : Goal)
    (hstage : s.extracted_information.conversation_stage = .CONFIRM_GOAL)
    (hu : s.extracted_information.user = some u)
    (hg : s.extracted_information.pending_goal = some g)
    (hns : pyNorm (lastMsgText s) ∉ STOP_COMMANDS) :
    (List.isPrefixOf "y".data (pyLower (lastMsgText s).data) = true →
      ∃ s' ext', chat_response today oracle s = some (s', ext') ∧
        ext'.user = some { u with goals := u.goals ++ [g] } ∧
        ext'.pending_goal = none ∧
        ext'.conversation_stage = .ADD_ANOTHER_GOAL) ∧
    (List.isPrefixOf "y".data (pyLower (lastMsgText s).data) = false →
      ∃ s' ext', chat_response today oracle s = some (s', ext') ∧
        ext'.user = some u ∧
        ext'.pending_goal = none ∧
        ext'.conversation_stage = .GET_GOAL_TYPE) := by
  unfold chat_response
  rw [if_neg hns]
  simp only [stepStage, hstage]
  unfold stepConfirm
  constructor
  · intro hy
    rw [if_pos hy, hu, hg]
    exact ⟨_, _, rfl, rfl, rfl, rfl⟩
  · intro hy
    rw [if_neg (by simp [hy])]
    exact ⟨_, _, rfl, hu, rfl, rfl⟩

/-- Witness for C4 at a concrete confirming state answering `"yes"`. -/
theorem c4_confirm_branch_witness :
    ∃ s' ext', chat_response exToday none exConfirmState = some (s', ext') ∧
      ext'.user = some { exUser with goals := exUser.goals ++ [⟨.NEW_CAR, "Buy a new car", none⟩] } ∧
      ext'.pending_goal = none ∧
      ext'.conversation_stage = .ADD_ANOTHER_GOAL :=
  (c4_confirm_branch exToday none exConfirmState exUser ⟨.NEW_CAR, "Buy a new car", none⟩
    rfl rfl rfl (by decide)).1 (by decide)

/-! ## Claim C1 - the pending-goal invariant

The biconditional claimed by the spec fails: the stop-command branch sets
the stage to `COMPLETED` without clearing the pending goal, so issuing a
stop word at `GET_GOAL_DETAILS` or `CONFIRM_GOAL` reaches a `COMPLETED`
state that still holds a pending goal.  What the engine does maintain is
`pendingInv`: the goal-collecting stages always hold a pending goal, and a
pending goal survives only into those stages or into `COMPLETED`. -/

theorem notWants_GUI : ¬ stageWantsPending .GET_USER_INFO := by decide

theorem notWants_GGT : ¬ stageWantsPending .GET_GOAL_TYPE := by decide

theorem notWants_AAG : ¬ stageWantsPending .ADD_ANOTHER_GOAL := by decide

theorem notWants_DONE : ¬ stageWantsPending .COMPLETED := by decide

/-- The stage dispatch preserves `pendingInv`. -/
theorem stepStage_pendingInv {today : Date} {oracle : Option JObj} {last : String}
    {ext : ExtractedInformation} {msgs : List Message} {ext' : ExtractedInformation}
    (h : stepStage today oracle last ext = some (msgs, ext'))
    (hinv : pendingInv ext) : pendingInv ext' := by
  cases hstage : ext.conversation_stage with
  | GET_USER_INFO =>
    have hpnone : ¬ ext.pending_goal.isSome = true := by
      intro hp
      rcases hinv.2 hp with hw | hc
      · rw [hstage] at hw; exact notWants_GUI hw
      · rw [hstage] at hc; cases hc
    simp only [stepStage, hstage] at h
    unfold stepUserInfo at h
    split at h
    · split at h
      · split at h
        · exact Option.noConfusion h
        · cases h
          exact ⟨fun hw => absurd hw notWants_GGT, fun hp => absurd hp hpnone⟩
      · exact Option.noConfusion h
    · cases h
      exact hinv
  | GET_GOAL_TYPE =>
    simp only [stepStage, hstage] at h
    unfold stepGoalType at h
    split at h
    · cases h
      exact ⟨fun _ => rfl, fun _ => Or.inl (Or.inl rfl)⟩
    · split at h
      · cases h
        exact ⟨fun _ => rfl, fun _ => Or.inl (Or.inl rfl)⟩
      · cases h
        exact ⟨fun _ => rfl, fun _ => Or.inl (Or.inl rfl)⟩
  | GET_GOAL_DETAILS =>
    have hp : ext.pending_goal.isSome = true :=
      hinv.1 (by rw [hstage]; exact Or.inl rfl)
    obtain ⟨pg, hpg⟩ := Option.isSome_iff_exists.mp hp
    simp only [stepStage, hstage] at h
    unfold stepGoalDetails at h
    simp only [hpg] at h
    cases hex : extract_goal_details today oracle pg.goal_type with
    | none =>
      simp only [hex] at h
      cases hgt : pg.goal_type <;> simp only [hgt] at h <;> cases h <;>
        exact hinv
    | some gd =>
      simp only [hex] at h
      cases hgt : pg.goal_type with
      | NEW_HOME =>
        simp only [hgt] at h
        split at h
        · cases h
          exact ⟨fun _ => rfl, fun _ => Or.inl (Or.inr rfl)⟩
        · exact Option.noConfusion h
      | NEW_CAR =>
        simp only [hgt] at h
        split at h
        · cases h
          exact ⟨fun _ => rfl, fun _ => Or.inl (Or.inr rfl)⟩
        · exact Option.noConfusion h
      | OTHER =>
        simp only [hgt] at h
        split at h
        · cases h
          exact ⟨fun _ => rfl, fun _ => Or.inl (Or.inr rfl)⟩
        · exact Option.noConfusion h
  | CONFIRM_GOAL =>
    simp only [stepStage, hstage] at h
    unfold stepConfirm at h
    split at h
    · split at h
      · cases h
        exact ⟨fun hw => absurd hw notWants_AAG,
               fun hp => Bool.noConfusion hp⟩
      · exact Option.noConfusion h
    · cases h
      exact ⟨fun hw => absurd hw notWants_GGT, fun hp => Bool.noConfusion hp⟩
  | ADD_ANOTHER_GOAL =>
    have hpnone : ¬ ext.pending_goal.isSome = true := by
      intro hp
      rcases hinv.2 hp with hw | hc
      · rw [hstage] at hw; exact notWants_AAG hw
      · rw [hstage] at hc; cases hc
    simp only [stepStage, hstage] at h
    unfold stepAddAnother at h
    split at h <;> cases h
    · exact ⟨fun hw => absurd hw notWants_GGT, fun hp => absurd hp hpnone⟩
    · exact ⟨fun hw => absurd hw notWants_DONE, fun _ => Or.inr rfl⟩
  | COMPLETED =>
    simp only [stepStage, hstage] at h
    cases h
    exact hinv

/-- A whole turn preserves `pendingInv` (the stop branch keeps the pending
goal but moves the stage to `COMPLETED`, which `pendingInv` allows). -/
theorem chat_response_pendingInv {today : Date} {oracle : Option JObj}
    {s s' : ConversationState} {e : ExtractedInformation}
    (h : chat_response today oracle s = some (s', e))
    (hinv : pendingInv s.extracted_information) :
    pendingInv s'.extracted_information := by
  unfold chat_response at h
  split at h
  · cases h
    exact ⟨fun hw => absurd hw notWants_DONE, fun _ => Or.inr rfl⟩
  · split at h
    · exact Option.noConfusion h
    · next heq =>
      cases h
      exact stepStage_pendingInv heq hinv

/-- Every reachable state satisfies `pendingInv`. -/
theorem reachable_pendingInv {today : Date} {s : ConversationState}
    (hr : Reachable today s) : pendingInv s.extracted_information := by
  induction hr with
  | init => exact (by decide : pendingInv initConversationState.extracted_information)
  | step hr heq ih =>
    rename_i s0 s1 oracle utt
    unfold userTurn at heq
    cases hcr : chat_response today oracle
        { s0 with messages := s0.messages ++ [⟨utt, .USER⟩] } with
    | none => rw [hcr] at heq; cases heq
    | some r =>
      rw [hcr] at heq
      obtain rfl := Option.some.inj heq
      exact chat_response_pendingInv hcr ih

/-- Counterexample to claim C1 as stated: a state reachable in three turns
(identity, goal kind `"home"`, then the stop word `"stop"`) is `COMPLETED`
- a stage outside {`GET_GOAL_DETAILS`, `CONFIRM_GOAL`} - yet its pending
goal is non-null, refuting the claimed biconditional on reachable states. -/
theorem c1_pending_invariant_counterexample :
    Reachable exToday exS3 ∧
    exS3.extracted_information.pending_goal.isSome = true ∧
    ¬ stageWantsPending exS3.extracted_information.conversation_stage := by
  refine ⟨?_, by decide, by decide⟩
  have h1 : userTurn exToday (some exUserObj) "I am John Smith"
      initConversationState = some exS1 := by decide
  have h2 : userTurn exToday none "home" exS1 = some exS2 := by decide
  have h3 : userTurn exToday none "stop" exS2 = some exS3 := by decide
  exact Reachable.step (Reachable.step (Reachable.step Reachable.init h1) h2) h3

/-- Claim C1, amended: on every reachable state, a stage in
{`GET_GOAL_DETAILS`, `CONFIRM_GOAL`} implies a non-null pending goal, and a
non-null pending goal implies the stage is one of `GET_GOAL_DETAILS`,
`CONFIRM_GOAL` or `COMPLETED` - the stop transition moves to `COMPLETED`
without clearing the pending goal, so the claimed biconditional must admit
`COMPLETED` on the right-to-left side. -/
theorem c1_pending_invariant_amended (today : Date) (s : ConversationState)
    (hr : Reachable today s) : pendingInv s.extracted_information :=
  reachable_pendingInv hr

/-- Witness for the amended C1 at the initial state. -/
theorem c1_pending_invariant_amended_witness :
    pendingInv initConversationState.extracted_information :=
  c1_pending_invariant_amended exToday initConversationState Reachable.init

/-! ## Claim C8 - malformed extraction responses -/

/-- Claim C8: at the two extraction-invoking stages (`GET_USER_INFO` and
`GET_GOAL_DETAILS`), a malformed extraction response (failed call, empty
response, or undecodable JSON - the `none` oracle) on a non-stop utterance
never raises, leaves the conversation stage unchanged and appends exactly
one AI re-prompt message; reachability supplies the pending goal that the
`GET_GOAL_DETAILS` branch dereferences. -/
theorem c8_malformed_extraction (today : Date) (s : ConversationState)
    (hr : Reachable today s)
    (hstage : s.extracted_information.conversation_stage = .GET_USER_INFO ∨
              s.extracted_information.conversation_stage = .GET_GOAL_DETAILS)
    (hns : pyNorm (lastMsgText s) ∉ STOP_COMMANDS) :
    ∃ s' ext' m, chat_response today none s = some (s', ext') ∧
      ext'.conversation_stage = s.extracted_information.conversation_stage ∧
      s'.new_messages = [m] ∧ m.sender = .AI := by
  unfold chat_response
  rw [if_neg hns]
  rcases hstage with h | h
  · simp only [stepStage, h]
    unfold stepUserInfo
    rw [if_neg (by decide)]
    exact ⟨_, _, _, rfl, h, rfl, rfl⟩
  · have hp := (reachable_pendingInv hr).1 (Or.inl h)
    obtain ⟨pg, hpg⟩ := Option.isSome_iff_exists.mp hp
    obtain ⟨gt, gn, gi⟩ := pg
    simp only [stepStage, h]
    unfold stepGoalDetails
    rw [hpg]
    cases gt <;> exact ⟨_, _, _, rfl, h, rfl, rfl⟩

/-- Witness for C8: the initial state with a failed extraction call. -/
theorem c8_malformed_extraction_witness :
    ∃ s' ext' m, chat_response exToday none initConversationState = some (s', ext') ∧
      ext'.conversation_stage =
        initConversationState.extracted_information.conversation_stage ∧
      s'.new_messages = [m] ∧ m.sender = .AI :=
  c8_malformed_extraction exToday initConversationState Reachable.init
    (Or.inl rfl) (by decide)

/-! ## Claim C6 - `parse_date` round-trips ISO dates -/

theorem digitChar_isDigit {k : Nat} (h : k < 10) : (digitChar k).isDigit = true := by
  interval_cases k <;> decide

theorem cVal_digitChar {k : Nat} (h : k < 10) : cVal (digitChar k) = k := by
  interval_cases k <;> decide

theorem toLower_digitChar (k : Nat) : (digitChar k).toLower = digitChar k := by
  unfold digitChar; split <;> decide

theorem digitChar_not_space (k : Nat) : isPySpace (digitChar k) = false := by
  unfold digitChar; split <;> decide

theorem digitChar_ne_i (k : Nat) : digitChar k ≠ 'i' := by
  unfold digitChar; split <;> decide

theorem digitChar_ne_n (k : Nat) : digitChar k ≠ 'n' := by
  unfold digitChar; split <;> decide

theorem readY4_pad4 {y : Nat} (hy : y ≤ 9999) (rest : List Char) :
    readY4 (pad4 y ++ rest) = some (y, rest) := by
  have h1 : y / 1000 % 10 < 10 := Nat.mod_lt _ (by norm_num)
  have h2 : y / 100 % 10 < 10 := Nat.mod_lt _ (by norm_num)
  have h3 : y / 10 % 10 < 10 := Nat.mod_lt _ (by norm_num)
  have h4 : y % 10 < 10 := Nat.mod_lt _ (by norm_num)
  show readY4 (digitChar (y / 1000 % 10) :: digitChar (y / 100 % 10) ::
      digitChar (y / 10 % 10) :: digitChar (y % 10) :: rest) = some (y, rest)
  simp only [readY4]
  rw [if_pos ⟨digitChar_isDigit h1, digitChar_isDigit h2,
              digitChar_isDigit h3, digitChar_isDigit h4⟩]
  rw [cVal_digitChar h1, cVal_digitChar h2, cVal_digitChar h3, cVal_digitChar h4]
  have : 1000 * (y / 1000 % 10) + 100 * (y / 100 % 10) + 10 * (y / 10 % 10) + y % 10 = y := by
    omega
  rw [this]

theorem readMM_pad2 {m : Nat} (h1 : 1 ≤ m) (h2 : m ≤ 12) (rest : List Char) :
    readMM (pad2 m ++ rest) = some (m, rest) := by
  interval_cases m <;>
    simp only [pad2, digitChar, List.cons_append, List.nil_append, readMM] <;>
    repeat' first
      | rw [if_pos (by decide)]
      | rw [if_neg (by decide)]
      | rfl

theorem readDD_pad2 {d : Nat} (h1 : 1 ≤ d) (h2 : d ≤ 31) (rest : List Char) :
    readDD (pad2 d ++ rest) = some (d, rest) := by
  interval_cases d <;>
    simp only [pad2, digitChar, List.cons_append, List.nil_append, readDD] <;>
    repeat' first
      | rw [if_pos (by decide)]
      | rw [if_neg (by decide)]
      | rfl

theorem daysInMonth_le_31 (y m : Nat) : daysInMonth y m ≤ 31 := by
  unfold daysInMonth
  split
  · split <;> omega
  · split <;> omega

theorem strptimeYMD_iso {D : Date} (hD : ValidDate D) :
    strptimeYMD (isoChars D) = some D := by
  obtain ⟨y, m, d⟩ := D
  obtain ⟨hy1, hy2, hm1, hm2, hd1, hd2⟩ := hD
  show strptimeYMD (pad4 y ++ '-' :: (pad2 m ++ '-' :: pad2 d)) = some ⟨y, m, d⟩
  unfold strptimeYMD
  rw [readY4_pad4 hy2]
  simp only
  rw [readMM_pad2 hm1 hm2]
  simp only
  rw [show pad2 d = pad2 d ++ [] from (List.append_nil _).symm,
      readDD_pad2 hd1 (le_trans hd2 (daysInMonth_le_31 y m))]
  simp only [mkValidDate]
  rw [if_pos ⟨hy1, hy2, hm1, hm2, hd1, hd2⟩]

theorem pyLower_iso (D : Date) : pyLower (isoChars D) = isoChars D := by
  simp only [pyLower, isoChars, pad4, pad2, List.map_append, List.map_cons,
    List.map_nil, toLower_digitChar]
  rfl

theorem dropWhile_head_false {p : Char → Bool} {c : Char} {t : List Char}
    (h : p c = false) : (c :: t).dropWhile p = c :: t := by
  rw [List.dropWhile_cons, h]
  simp

theorem pyStrip_iso (D : Date) : pyStrip (isoChars D) = isoChars D := by
  have hiso : isoChars D = digitChar (D.year / 1000 % 10) ::
        (digitChar (D.year / 100 % 10) :: digitChar (D.year / 10 % 10) ::
         digitChar (D.year % 10) :: '-' :: pad2 D.month ++ '-' :: pad2 D.day) := rfl
  have hrev : (isoChars D).reverse =
      digitChar (D.day % 10) :: (digitChar (D.day / 10 % 10) :: '-' ::
        digitChar (D.month % 10) :: digitChar (D.month / 10 % 10) :: '-' ::
        digitChar (D.year % 10) :: digitChar (D.year / 10 % 10) ::
        digitChar (D.year / 100 % 10) :: digitChar (D.year / 1000 % 10) :: []) := by
    rw [hiso]
    simp [pad2]
  unfold pyStrip
  rw [hiso, dropWhile_head_false (digitChar_not_space _), ← hiso, hrev,
      dropWhile_head_false (digitChar_not_space _), ← hrev, List.reverse_reverse]

theorem inBranchResult_digit (today : Date) (k : Nat) (t : List Char) :
    inBranchResult today (digitChar k :: t) = none := by
  unfold inBranchResult
  rw [if_neg]
  intro hpre
  rw [show "in ".data = ['i', 'n', ' '] from rfl] at hpre
  simp only [List.isPrefixOf, Bool.and_eq_true, beq_iff_eq] at hpre
  exact digitChar_ne_i k hpre.1.symm

theorem cons_ne_next_month (k : Nat) (t : List Char) :
    ¬ (digitChar k :: t) = "next month".data := by
  intro h
  rw [show "next month".data = 'n' :: "ext month".data from rfl] at h
  exact digitChar_ne_n k (List.head_eq_of_cons_eq h)

theorem cons_ne_next_year (k : Nat) (t : List Char) :
    ¬ (digitChar k :: t) = "next year".data := by
  intro h
  rw [show "next year".data = 'n' :: "ext year".data from rfl] at h
  exact digitChar_ne_n k (List.head_eq_of_cons_eq h)

theorem parseDateCore_iso (today : Date) {D : Date} (hD : ValidDate D) :
    parseDateCore today (isoChars D) = some D := by
  have hiso : isoChars D = digitChar (D.year / 1000 % 10) ::
      (digitChar (D.year / 100 % 10) :: digitChar (D.year / 10 % 10) ::
       digitChar (D.year % 10) :: '-' :: pad2 D.month ++ '-' :: pad2 D.day) := rfl
  have htf : tryFormats (isoChars D) = some D := by
    unfold tryFormats
    rw [strptimeYMD_iso hD]
    rfl
  unfold parseDateCore
  rw [hiso, inBranchResult_digit]
  simp only
  rw [if_neg (cons_ne_next_month _ _), if_neg (cons_ne_next_year _ _), ← hiso, htf]

/-- Claim C6: `parse_date` round-trips ISO-formatted dates - for every
valid calendar date `D` and every value of today, parsing the zero-padded
`YYYY-MM-DD` rendering of `D` returns `D`: the relative-prefix, `next`
literal and bare-year rules never intercept an ISO-formatted string, and
the `%Y-%m-%d` format is the first of the format loop. -/
theorem c6_parse_date_iso_roundtrip (today : Date) (D : Date) (hD : ValidDate D) :
    parse_date today (isoFormat D) = some D := by
  have hne : ¬ isoChars D = [] := by
    have hiso : isoChars D = digitChar (D.year / 1000 % 10) ::
        (digitChar (D.year / 100 % 10) :: digitChar (D.year / 10 % 10) ::
         digitChar (D.year % 10) :: '-' :: pad2 D.month ++ '-' :: pad2 D.day) := rfl
    rw [hiso]
    exact List.cons_ne_nil _ _
  show (if isoChars D = [] then none
        else parseDateCore today (pyStrip (pyLower (isoChars D)))) = some D
  rw [if_neg hne, pyLower_iso, pyStrip_iso, parseDateCore_iso today hD]

/-- Witness for C6 at the concrete date 1990-05-01. -/
theorem c6_parse_date_iso_roundtrip_witness :
    parse_date exToday (isoFormat ⟨1990, 5, 1⟩) = some ⟨1990, 5, 1⟩ :=
  c6_parse_date_iso_roundtrip exToday ⟨1990, 5, 1⟩ (by decide)


end MultiplyChat
